import Mathlib

/-!
Verification of the response-verification core of the `nicheinc/recaptcha`
Go library against its natural-language specification.

The embedding covers the data model (`Response`, the error taxonomy from
`errors.go`), the `Verify` method (`client.go`), the four criterion
constructors (`Hostname`, `Action`, `Score`, `ChallengeTs`), and client
construction (`NewClient` with its functional options).

Modelling choices:
- `score`/threshold values (Go `float64`, used only in an order comparison,
  never in arithmetic) are modelled as rationals `ℚ`, which preserves the
  order semantics of the comparisons the code performs;
- points in time (Go `time.Time`) and durations (Go `time.Duration`) are
  modelled as integers (nanosecond counts); `now().Sub(ts)` becomes integer
  subtraction;
- a Go criterion is `func(r *Response) error`, receiving a pointer through
  which it could in principle mutate the response.  To make mutation (or its
  absence) observable, a `Criterion` here is state-passing:
  `Response → Response × Option RecaptchaError`, returning the response
  value as it stands after the call, alongside the returned error
  (`none` = the Go `nil` error);
- the package-level mockable `var now = time.Now` time source becomes an
  explicit integer parameter of the `ChallengeTs` constructor.
-/

namespace Recaptcha

/-- Response models the Go struct of the same name (client.go): the decoded
body of a reCAPTCHA verification endpoint reply, with fields `Success`,
`Score`, `Action`, `ChallengeTs`, `Hostname` and `ErrorCodes`. -/
structure Response where
  success : Bool
  score : ℚ
  action : String
  challengeTs : Int
  hostname : String
  errorCodes : List String
deriving DecidableEq

/-- RecaptchaError models, as one closed sum, the set of error values the
verification code of the library can produce (errors.go): `VerificationError`
(carrying `ErrorCodes`), `InvalidHostnameError` (carrying the actual
`Hostname`), `InvalidActionError` (carrying the actual `Action`),
`InvalidScoreError` (carrying the actual `Score`), and
`InvalidChallengeTsError` (carrying `ChallengeTs` and `Diff`).  In Go these
are distinct pointer types behind the `error` interface, so callers can
branch on the dynamic type; here they are distinct constructors. -/
inductive RecaptchaError where
  | verificationError (errorCodes : List String)
  | invalidHostnameError (hostname : String)
  | invalidActionError (action : String)
  | invalidScoreError (score : ℚ)
  | invalidChallengeTsError (challengeTs : Int) (diff : Int)
deriving DecidableEq

/-- Criterion models the Go declaration `type Criterion func(r *Response) error`
(client.go).  State passing exposes what the call does to the pointed-to
response: the first component is the response after the call, the second is
the returned error (`none` for the Go `nil`). -/
abbrev Criterion : Type := Response → Response × Option RecaptchaError

/-- runCriteria models the loop in `Response.Verify` (client.go): the
criteria are applied left to right to the response; the first non-nil error
ends the loop and is returned. -/
def runCriteria : Response → List Criterion → Response × Option RecaptchaError
  | r, [] => (r, none)
  | r, c :: cs =>
    match c r with
    | (r2, none) => runCriteria r2 cs
    | (r2, some e) => (r2, some e)

/-- Verify models `Response.Verify` (client.go): when `Success` is false or
`ErrorCodes` is non-empty it returns a `VerificationError` carrying the
`ErrorCodes` list of the response; otherwise it runs the supplied criteria in order
and returns the first failure, or `nil` when all pass. -/
def Verify (r : Response) (criteria : List Criterion) : Response × Option RecaptchaError :=
  if !r.success || !r.errorCodes.isEmpty then
    (r, some (RecaptchaError.verificationError r.errorCodes))
  else
    runCriteria r criteria

/-- Modelled from the spec: the current `client.go` of the repository — whose
`Hostname` criterion is variadic (`hostnames ...string`) and performs a
membership test (spec §4.2: pass iff `response.hostname` is a member of the
acceptable set) — is not under src/; src/client.go holds earlier snapshots
taking a single hostname, while the tests of the current version
(`Hostname("nathanjcochran.com", "niche.com")`), mock and example caller
(`recaptcha.Hostname(strings.Split(*hostnames, ",")...)`) are under src.
On failure the payload is the actual hostname, as forced by the
`InvalidHostnameError` struct in src/errors.go and expected by the tests. -/
def Hostname (hostnames : List String) : Criterion := fun r =>
  if r.hostname ∈ hostnames then (r, none)
  else (r, some (RecaptchaError.invalidHostnameError r.hostname))

/-- Modelled from the spec: the current `client.go` of the repository — whose
`Action` criterion is variadic (`actions ...string`) and performs a
membership test (spec §4.2: pass iff `response.action` is a member of the
acceptable set) — is not under src/; src/client.go holds earlier
single-value snapshots, while the tests and the example caller
(`recaptcha.Action(strings.Split(*actions, ",")...)`) of the current
version are under src.
On failure the payload is the actual action, as forced by the
`InvalidActionError` struct in src/errors.go and expected by the tests. -/
def Action (actions : List String) : Criterion := fun r =>
  if r.action ∈ actions then (r, none)
  else (r, some (RecaptchaError.invalidActionError r.action))

/-- Score models the `Score` criterion constructor (client.go): the
criterion fails with an `InvalidScoreError` carrying the actual score when
`r.Score < threshold`, and passes otherwise (inclusive boundary). -/
def Score (threshold : ℚ) : Criterion := fun r =>
  if r.score < threshold then (r, some (RecaptchaError.invalidScoreError r.score))
  else (r, none)

/-- ChallengeTs models the challenge-freshness criterion.  The pass
condition mirrors src/client.go verbatim: with `diff := now().Sub(r.ChallengeTs)`,
the criterion fails iff `diff > window`.  The package-level mockable
`var now = time.Now` time source is the explicit `now` parameter here.
Modelled from the spec: the current `client.go` is not under src/, and the
failure payload follows spec §9 (include both the timestamp and the
computed age), matching the `InvalidChallengeTsError` struct of
src/errors.go (fields `ChallengeTs` and `Diff`) and the current version
test under src, which expects `Diff` to be populated with the computed
age. -/
def ChallengeTs (now window : Int) : Criterion := fun r =>
  if window < now - r.challengeTs then
    (r, some (RecaptchaError.invalidChallengeTsError r.challengeTs (now - r.challengeTs)))
  else (r, none)

/-- CriterionKind enumerates the criterion constructors the library
exports, with their parameters (for `ChallengeTs`, including the reading of
the injected time source), so that statements can quantify over every
criterion the library can build. -/
inductive CriterionKind where
  | hostname (hostnames : List String)
  | action (actions : List String)
  | score (threshold : ℚ)
  | challengeTs (now window : Int)

/-- Evaluation of a `CriterionKind` to the criterion it denotes. -/
def CriterionKind.eval : CriterionKind → Criterion
  | .hostname hs => Hostname hs
  | .action as => Action as
  | .score t => Score t
  | .challengeTs n w => ChallengeTs n w

/-- DefaultURL models the constant of the same name (client.go). -/
def DefaultURL : String := "https://www.google.com/recaptcha/api/siteverify"

/-- HTTPClientModel stands for values of the Go `HTTPClient` interface:
`defaultClient` is the distinguished `http.DefaultClient`, and `custom id`
an arbitrary caller-supplied implementation. -/
inductive HTTPClientModel where
  | defaultClient
  | custom (id : Nat)
deriving DecidableEq

/-- Client models the client struct (client.go): fields `secret`, `url`,
and the HTTP client used for requests. -/
structure Client where
  secret : String
  url : String
  httpClient : HTTPClientModel
deriving DecidableEq

/-- ClientOption models the functional configuration options for
`NewClient` (client.go): `SetHTTPClient` and `SetURL` each return a closure
writing one field of the client under construction; here each option is a
constructor and `applyClientOption` is the closure body. -/
inductive ClientOption where
  | SetHTTPClient (client : HTTPClientModel)
  | SetURL (url : String)
deriving DecidableEq

/-- applyClientOption is the body of the closure each option denotes
(client.go): `SetHTTPClient` sets the HTTP-client field, `SetURL` sets the
URL field. -/
def applyClientOption (c : Client) : ClientOption → Client
  | .SetHTTPClient h => { c with httpClient := h }
  | .SetURL u => { c with url := u }

/-- NewClient models `NewClient` (client.go): it starts from the defaults
(`DefaultURL`, `http.DefaultClient`) and applies the supplied options in
order. -/
def NewClient (secret : String) (opts : List ClientOption) : Client :=
  opts.foldl applyClientOption
    { secret := secret, url := DefaultURL, httpClient := HTTPClientModel.defaultClient }

/-- setsURL is true for the options that write the `url` field. -/
def setsURL : ClientOption → Bool
  | .SetURL _ => true
  | .SetHTTPClient _ => false

/-- setsHTTPClient is true for the options that write the `httpClient`
field. -/
def setsHTTPClient : ClientOption → Bool
  | .SetURL _ => false
  | .SetHTTPClient _ => true

/-- Helper: when the base success/error-code check passes, `Verify` is the
criteria loop. -/
theorem Verify_ok (r : Response) (cs : List Criterion)
    (hs : r.success = true) (hc : r.errorCodes = []) :
    Verify r cs = runCriteria r cs := by
  simp [Verify, hs, hc]

/-- Helper: a run in which every criterion passes on `r` (leaving it
unchanged) returns `r` and no error. -/
theorem runCriteria_all_pass (r : Response) (cs : List Criterion)
    (h : ∀ c ∈ cs, c r = (r, none)) :
    runCriteria r cs = (r, none) := by
  induction cs with
  | nil => rfl
  | cons c cs ih =>
    have hc := h c (List.mem_cons_self c cs)
    simp only [runCriteria, hc]
    exact ih fun c2 hc2 => h c2 (List.mem_cons_of_mem c hc2)

/-- Helper: a passing prefix of criteria does not affect the rest of the
run. -/
theorem runCriteria_append_pass (r : Response) (cs1 cs2 : List Criterion)
    (h : ∀ c ∈ cs1, c r = (r, none)) :
    runCriteria r (cs1 ++ cs2) = runCriteria r cs2 := by
  induction cs1 with
  | nil => rfl
  | cons c cs ih =>
    have hc := h c (List.mem_cons_self c cs)
    simp only [List.cons_append, runCriteria, hc]
    exact ih fun c2 hc2 => h c2 (List.mem_cons_of_mem c hc2)

/-- Helper: every criterion the library exports returns the response it was
given, unchanged. -/
theorem CriterionKind.eval_fst (k : CriterionKind) (r : Response) :
    (k.eval r).1 = r := by
  cases k <;> simp only [CriterionKind.eval, Hostname, Action, Score, ChallengeTs] <;>
    split <;> rfl

/-- Helper: the criteria loop over library criteria returns the response
unchanged. -/
theorem runCriteria_eval_fst (r : Response) (ks : List CriterionKind) :
    (runCriteria r (ks.map CriterionKind.eval)).1 = r := by
  induction ks generalizing r with
  | nil => rfl
  | cons k ks ih =>
    have h1 : (k.eval r).1 = r := CriterionKind.eval_fst k r
    rcases he : k.eval r with ⟨r2, o⟩
    have hr2 : r2 = r := by rw [he] at h1; exact h1
    cases o with
    | none =>
      simp only [List.map_cons, runCriteria, he, hr2]
      exact ih r
    | some e =>
      simp only [List.map_cons, runCriteria, he, hr2]

/-- Helper: options that do not write the `url` field leave it unchanged. -/
theorem foldl_url_of_no_setURL (c : Client) (opts : List ClientOption)
    (h : ∀ o ∈ opts, setsURL o = false) :
    (opts.foldl applyClientOption c).url = c.url := by
  induction opts generalizing c with
  | nil => rfl
  | cons o os ih =>
    have ho := h o (List.mem_cons_self o os)
    cases o with
    | SetURL u => simp [setsURL] at ho
    | SetHTTPClient hcl =>
      have := ih (applyClientOption c (ClientOption.SetHTTPClient hcl))
        (fun o2 ho2 => h o2 (List.mem_cons_of_mem _ ho2))
      simpa [applyClientOption] using this

/-- Helper: options that do not write the `httpClient` field leave it
unchanged. -/
theorem foldl_httpClient_of_no_setHTTPClient (c : Client) (opts : List ClientOption)
    (h : ∀ o ∈ opts, setsHTTPClient o = false) :
    (opts.foldl applyClientOption c).httpClient = c.httpClient := by
  induction opts generalizing c with
  | nil => rfl
  | cons o os ih =>
    have ho := h o (List.mem_cons_self o os)
    cases o with
    | SetHTTPClient hcl => simp [setsHTTPClient] at ho
    | SetURL u =>
      have := ih (applyClientOption c (ClientOption.SetURL u))
        (fun o2 ho2 => h o2 (List.mem_cons_of_mem _ ho2))
      simpa [applyClientOption] using this

/-- C1: for every Response whose success field is false or whose errorCodes
list is non-empty, and for every list of criteria, Verify returns the base
VerificationError carrying exactly the errorCodes of the response in their
original order (possibly empty when only success=false triggered it), and
no criterion is evaluated: the result does not depend on the criteria at
all. -/
theorem verify_base_short_circuits (r : Response) (cs : List Criterion)
    (h : r.success = false ∨ r.errorCodes ≠ []) :
    Verify r cs = (r, some (RecaptchaError.verificationError r.errorCodes)) := by
  rcases h with h | h
  · simp [Verify, h]
  · cases hce : r.errorCodes with
    | nil => exact absurd hce h
    | cons a t => simp [Verify, hce]

/-- Witness for C1: a concrete response with success=false and empty
errorCodes short-circuits to the base failure with an empty code list, for
a non-empty criteria list. -/
theorem verify_base_short_circuits_witness :
    Verify ⟨false, 1, "login", 0, "niche.com", []⟩ [Score 2] =
      (⟨false, 1, "login", 0, "niche.com", []⟩,
        some (RecaptchaError.verificationError [])) :=
  verify_base_short_circuits _ [Score 2] (Or.inl rfl)

/-- C2: for a structurally successful response (success=true, empty
errorCodes), Verify with no criteria returns success; when every supplied
criterion passes, Verify returns success; and when a prefix of passing
criteria is followed by a failing criterion, Verify returns exactly that
first failure, independently of any later criteria (first-failure-wins, no
aggregation, later criteria never evaluated). -/
theorem verify_first_failure_wins (r : Response)
    (hs : r.success = true) (hc : r.errorCodes = []) :
    Verify r [] = (r, none)
    ∧ (∀ cs : List Criterion, (∀ c ∈ cs, c r = (r, none)) → Verify r cs = (r, none))
    ∧ (∀ (cs1 : List Criterion) (c : Criterion) (cs2 : List Criterion)
        (r2 : Response) (e : RecaptchaError),
        (∀ c1 ∈ cs1, c1 r = (r, none)) → c r = (r2, some e) →
        Verify r (cs1 ++ c :: cs2) = (r2, some e)) := by
  refine ⟨?_, ?_, ?_⟩
  · rw [Verify_ok r [] hs hc]; rfl
  · intro cs h
    rw [Verify_ok r cs hs hc]
    exact runCriteria_all_pass r cs h
  · intro cs1 c cs2 r2 e h1 h2
    rw [Verify_ok _ _ hs hc, runCriteria_append_pass r cs1 (c :: cs2) h1]
    simp only [runCriteria, h2]

/-- Witness for C2: on a concrete structurally successful response, a
passing Score criterion followed by a failing one and a further criterion
yields exactly the failure of the second criterion. -/
theorem verify_first_failure_wins_witness :
    Verify ⟨true, 1, "login", 0, "niche.com", []⟩
        [Score 0, Score 2, Hostname ["x"]] =
      (⟨true, 1, "login", 0, "niche.com", []⟩,
        some (RecaptchaError.invalidScoreError 1)) :=
  (verify_first_failure_wins _ rfl rfl).2.2 [Score 0] (Score 2) [Hostname ["x"]]
    ⟨true, 1, "login", 0, "niche.com", []⟩ (RecaptchaError.invalidScoreError 1)
    (by decide) (by decide)

/-- C3: for a structurally successful response whose action is not among
the acceptable action values, Verify with the Action criterion (after any
earlier passing criteria) returns an invalid-action failure carrying the
actual action from the response — and invalid-action failures are distinct
from invalid-hostname failures (the taxonomy is mutually exclusive). -/
theorem verify_invalid_action_failure (r : Response) (acts : List String)
    (cs1 : List Criterion) (hs : r.success = true) (hc : r.errorCodes = [])
    (ha : r.action ∉ acts) (h1 : ∀ c ∈ cs1, c r = (r, none)) :
    Verify r (cs1 ++ [Action acts]) =
      (r, some (RecaptchaError.invalidActionError r.action))
    ∧ ∀ (a h : String),
        RecaptchaError.invalidActionError a ≠ RecaptchaError.invalidHostnameError h := by
  constructor
  · rw [Verify_ok _ _ hs hc, runCriteria_append_pass r cs1 _ h1]
    simp [runCriteria, Action, ha]
  · intro a h hcon
    exact RecaptchaError.noConfusion hcon

/-- Witness for C3: a concrete response with action "login" checked against
acceptable actions ["register"] yields the invalid-action failure carrying
"login". -/
theorem verify_invalid_action_failure_witness :
    Verify ⟨true, 1, "login", 0, "niche.com", []⟩ [Action ["register"]] =
      (⟨true, 1, "login", 0, "niche.com", []⟩,
        some (RecaptchaError.invalidActionError "login")) :=
  (verify_invalid_action_failure _ ["register"] [] rfl rfl (by decide)
    (by decide)).1

/-- C4: for a structurally successful response, the Hostname criterion
passes iff the hostname of the response is a member of the supplied list of
acceptable hostnames, and the Action criterion passes iff the action of the
response is a member of the supplied list of acceptable actions (a
membership test over one or more values, not an equality test). -/
theorem hostname_action_membership (r : Response)
    (hostnames actions : List String)
    (hs : r.success = true) (hc : r.errorCodes = []) :
    ((Verify r [Hostname hostnames]).2 = none ↔ r.hostname ∈ hostnames)
    ∧ ((Verify r [Action actions]).2 = none ↔ r.action ∈ actions) := by
  rw [Verify_ok r [Hostname hostnames] hs hc, Verify_ok r [Action actions] hs hc]
  constructor
  · by_cases h : r.hostname ∈ hostnames <;> simp [runCriteria, Hostname, h]
  · by_cases h : r.action ∈ actions <;> simp [runCriteria, Action, h]

/-- Witness for C4: with acceptable hostnames ["a.com", "b.com"], a
response from "b.com" passes (membership, second element) while one from
"c.com" does not. -/
theorem hostname_action_membership_witness :
    ((Verify ⟨true, 1, "login", 0, "b.com", []⟩
        [Hostname ["a.com", "b.com"]]).2 = none
      ↔ "b.com" ∈ (["a.com", "b.com"] : List String))
    ∧ ¬((Verify ⟨true, 1, "login", 0, "c.com", []⟩
        [Hostname ["a.com", "b.com"]]).2 = none) :=
  ⟨(hostname_action_membership _ ["a.com", "b.com"] ["login"] rfl rfl).1,
    fun h =>
      absurd ((hostname_action_membership ⟨true, 1, "login", 0, "c.com", []⟩
        ["a.com", "b.com"] ["login"] rfl rfl).1.mp h) (by decide)⟩

/-- C5: for a structurally successful response and any threshold, the Score
criterion passes iff threshold ≤ score (the boundary is inclusive), and
when it fails, the invalid-score failure carries the actual score from the
response. -/
theorem score_inclusive_boundary (r : Response) (threshold : ℚ)
    (hs : r.success = true) (hc : r.errorCodes = []) :
    ((Verify r [Score threshold]).2 = none ↔ threshold ≤ r.score)
    ∧ (r.score < threshold →
        Verify r [Score threshold] =
          (r, some (RecaptchaError.invalidScoreError r.score))) := by
  rw [Verify_ok r [Score threshold] hs hc]
  constructor
  · by_cases h : r.score < threshold
    · simp [runCriteria, Score, h, not_le.mpr h]
    · simp [runCriteria, Score, h, not_lt.mp h]
  · intro h
    simp [runCriteria, Score, h]

/-- Witness for C5 at the boundary values of the spec: score 2/5 against
threshold 1/2 fails carrying 2/5, and score exactly 1/2 against threshold
1/2 passes. -/
theorem score_inclusive_boundary_witness :
    Verify ⟨true, 2/5, "login", 0, "niche.com", []⟩ [Score (1/2)] =
      (⟨true, 2/5, "login", 0, "niche.com", []⟩,
        some (RecaptchaError.invalidScoreError (2/5)))
    ∧ (Verify ⟨true, 1/2, "login", 0, "niche.com", []⟩ [Score (1/2)]).2 = none :=
  ⟨(score_inclusive_boundary _ (1/2) rfl rfl).2 (by norm_num),
    ((score_inclusive_boundary ⟨true, 1/2, "login", 0, "niche.com", []⟩
      (1/2) rfl rfl).1).mpr (by norm_num)⟩

/-- C6: for a structurally successful response, any reading of the injected
time source and any window, the challenge-freshness criterion passes iff
now − challengeTs ≤ window (the time source being an explicit parameter of
the criterion in this embedding, in place of the mockable package variable
of the Go code). -/
theorem challengeTs_freshness_window (r : Response) (now window : Int)
    (hs : r.success = true) (hc : r.errorCodes = []) :
    (Verify r [ChallengeTs now window]).2 = none ↔ now - r.challengeTs ≤ window := by
  rw [Verify_ok r [ChallengeTs now window] hs hc]
  by_cases h : window < now - r.challengeTs
  · simp [runCriteria, ChallengeTs, h, not_le.mpr h]
  · simp [runCriteria, ChallengeTs, h, not_lt.mp h]

/-- Witness for C6: a challenge exactly as old as the window (age 60 with
window 60) passes — the boundary is inclusive — while with window 59 it
would exceed the bound. -/
theorem challengeTs_freshness_window_witness :
    ((100 : Int) - 40 ≤ 60)
    ∧ (Verify ⟨true, 1, "login", 40, "niche.com", []⟩
        [ChallengeTs 100 60]).2 = none :=
  ⟨by decide,
    (challengeTs_freshness_window ⟨true, 1, "login", 40, "niche.com", []⟩
      100 60 rfl rfl).mpr (by decide)⟩

/-- C7 counterexample: the invalid-hostname failure does not carry the
expected hostname(s).  Verifying one and the same response against two
different expected hostname sets returns the very same failure value,
carrying only the actual hostname "c.com", so the expected values are not
recoverable from the failure — contrary to the claim that each failure
carries both the expected and the actual values. -/
theorem verify_failure_payload_no_expected_cex :
    Verify ⟨true, 1, "login", 0, "c.com", []⟩ [Hostname ["a.com"]] =
      Verify ⟨true, 1, "login", 0, "c.com", []⟩ [Hostname ["b.com"]]
    ∧ Verify ⟨true, 1, "login", 0, "c.com", []⟩ [Hostname ["a.com"]] =
      (⟨true, 1, "login", 0, "c.com", []⟩,
        some (RecaptchaError.invalidHostnameError "c.com"))
    ∧ "a.com" ≠ "b.com" := by
  refine ⟨?_, ?_, ?_⟩ <;> decide

/-- C7 amended: every rejection produced by Verify is surfaced as a typed
value on which callers can branch by failure kind (the kinds are pairwise
distinct), and each failure carries the actual value relevant to its cause
— the base failure the error codes, the freshness failure the timestamp
and the computed age — but the hostname, action and score failures carry
only the actual value, not the expected value(s) or threshold. -/
theorem verify_failures_typed_actual_payload (r : Response)
    (hostnames actions : List String) (threshold : ℚ) (now window : Int)
    (hs : r.success = true) (hc : r.errorCodes = []) :
    (r.hostname ∉ hostnames →
      Verify r [Hostname hostnames] =
        (r, some (RecaptchaError.invalidHostnameError r.hostname)))
    ∧ (r.action ∉ actions →
      Verify r [Action actions] =
        (r, some (RecaptchaError.invalidActionError r.action)))
    ∧ (r.score < threshold →
      Verify r [Score threshold] =
        (r, some (RecaptchaError.invalidScoreError r.score)))
    ∧ (window < now - r.challengeTs →
      Verify r [ChallengeTs now window] =
        (r, some (RecaptchaError.invalidChallengeTsError r.challengeTs
          (now - r.challengeTs))))
    ∧ (∀ x y, RecaptchaError.invalidHostnameError x ≠ RecaptchaError.invalidActionError y)
    ∧ (∀ x q, RecaptchaError.invalidHostnameError x ≠ RecaptchaError.invalidScoreError q)
    ∧ (∀ cs x, RecaptchaError.verificationError cs ≠ RecaptchaError.invalidHostnameError x) := by
  refine ⟨?_, ?_, ?_, ?_, ?_, ?_, ?_⟩
  · intro h
    rw [Verify_ok r [Hostname hostnames] hs hc]
    simp [runCriteria, Hostname, h]
  · intro h
    rw [Verify_ok r [Action actions] hs hc]
    simp [runCriteria, Action, h]
  · intro h
    rw [Verify_ok r [Score threshold] hs hc]
    simp [runCriteria, Score, h]
  · intro h
    rw [Verify_ok r [ChallengeTs now window] hs hc]
    simp [runCriteria, ChallengeTs, h]
  · intro x y hcon; exact RecaptchaError.noConfusion hcon
  · intro x q hcon; exact RecaptchaError.noConfusion hcon
  · intro cs x hcon; exact RecaptchaError.noConfusion hcon

/-- Witness for the amended C7, matching the end-to-end example of the
spec: the response from "niche.com" checked against expected hostname
"other.com" yields the invalid-hostname failure carrying the actual
"niche.com". -/
theorem verify_failures_typed_actual_payload_witness :
    Verify ⟨true, 1/2, "login", 0, "niche.com", []⟩ [Hostname ["other.com"]] =
      (⟨true, 1/2, "login", 0, "niche.com", []⟩,
        some (RecaptchaError.invalidHostnameError "niche.com")) :=
  (verify_failures_typed_actual_payload _ ["other.com"] ["login"] 0 0 0
    rfl rfl).1 (by decide)

/-- C8: when the challenge-freshness criterion fails, the returned
invalid-challenge-freshness failure carries both the challenge timestamp of
the response and the computed age now − challengeTs. -/
theorem challengeTs_failure_carries_ts_and_age (r : Response)
    (now window : Int) (hs : r.success = true) (hc : r.errorCodes = [])
    (hf : window < now - r.challengeTs) :
    Verify r [ChallengeTs now window] =
      (r, some (RecaptchaError.invalidChallengeTsError r.challengeTs
        (now - r.challengeTs))) := by
  rw [Verify_ok r [ChallengeTs now window] hs hc]
  simp [runCriteria, ChallengeTs, hf]

/-- Witness for C8: a challenge issued at time 40, checked at time 100
against a window of 30, fails with a payload carrying the timestamp 40 and
the computed age 60. -/
theorem challengeTs_failure_carries_ts_and_age_witness :
    Verify ⟨true, 1, "login", 40, "niche.com", []⟩ [ChallengeTs 100 30] =
      (⟨true, 1, "login", 40, "niche.com", []⟩,
        some (RecaptchaError.invalidChallengeTsError 40 (100 - 40))) :=
  challengeTs_failure_carries_ts_and_age _ 100 30 rfl rfl (by decide)

/-- C9: Verify leaves every field of the response unchanged: for every
response and every list of criteria built from the constructors the library
exports (with any parameters, including any reading of the injected time
source), the response after the call equals the response before it.  The
determinism half of the claim holds by construction in this embedding:
`Verify` is a function of exactly the response, the criteria and the
time-source reading captured in them. -/
theorem verify_frame_preserves_response (r : Response) (ks : List CriterionKind) :
    (Verify r (ks.map CriterionKind.eval)).1 = r := by
  unfold Verify
  split
  · rfl
  · exact runCriteria_eval_fst r ks

/-- C10: NewClient with no options yields a client with the given secret,
the default verification URL and the default HTTP client; options are
applied in the order supplied, so the last option writing a given field
wins: any option list ending (as far as that field is concerned) in SetURL
u has url u, and likewise for SetHTTPClient. -/
theorem newClient_defaults_and_last_option_wins (secret : String) :
    NewClient secret [] =
      { secret := secret, url := DefaultURL,
        httpClient := HTTPClientModel.defaultClient }
    ∧ (∀ (opts1 opts2 : List ClientOption) (u : String),
        (∀ o ∈ opts2, setsURL o = false) →
        (NewClient secret (opts1 ++ ClientOption.SetURL u :: opts2)).url = u)
    ∧ (∀ (opts1 opts2 : List ClientOption) (h : HTTPClientModel),
        (∀ o ∈ opts2, setsHTTPClient o = false) →
        (NewClient secret (opts1 ++ ClientOption.SetHTTPClient h :: opts2)).httpClient = h) := by
  refine ⟨rfl, ?_, ?_⟩
  · intro opts1 opts2 u h
    unfold NewClient
    rw [List.foldl_append, List.foldl_cons]
    rw [foldl_url_of_no_setURL _ opts2 h]
    rfl
  · intro opts1 opts2 hcl h
    unfold NewClient
    rw [List.foldl_append, List.foldl_cons]
    rw [foldl_httpClient_of_no_setHTTPClient _ opts2 h]
    rfl

/-- Witness for C10: with SetURL supplied twice, the later URL wins even
when another kind of option follows it. -/
theorem newClient_defaults_and_last_option_wins_witness :
    (NewClient "secret"
      [ClientOption.SetURL "u1", ClientOption.SetURL "u2",
        ClientOption.SetHTTPClient (HTTPClientModel.custom 5)]).url = "u2" :=
  (newClient_defaults_and_last_option_wins "secret").2.1
    [ClientOption.SetURL "u1"]
    [ClientOption.SetHTTPClient (HTTPClientModel.custom 5)]
    "u2" (by decide)

end Recaptcha
